import Mathlib

/- Verification of the algorithmic core of the Money Mindset repository: the
simulation calculators embedded from the TypeScript sources under src/, and the
progression rules. Rational numbers stand in for JavaScript floats (every
operation the embedded code performs on the inputs considered here is exact in
ℚ); `Option ℚ` encodes JavaScript non-finite results where a computation can
produce `Infinity` or `NaN`, with `none` for the non-finite value, as noted at
each definition. -/

namespace MoneyMindset

/-- JavaScript `Math.round` on a rational: round half toward positive
infinity, `⌊x + 1/2⌋`. -/
def jsRound (x : ℚ) : ℤ := ⌊x + 1/2⌋

/- ===================================================================
   Credit-card debt simulation (src/unnamed/part_015)
   =================================================================== -/

/-- Result record of `calculatePayoff` in the credit-card simulation
(src/unnamed/part_015, `StepCompare`). In the source the non-convergent
branch returns `{ months: 600, totalPaid: Infinity, totalInterest: Infinity }`;
`none` encodes that `Infinity` sentinel. -/
structure PayoffResult where
  months : ℕ
  totalPaid : Option ℚ
  totalInterest : Option ℚ
deriving DecidableEq

/-- Loop of `calculatePayoff` (src/unnamed/part_015 lines 140-163). The
JavaScript loop `while (remainingBalance > 0 && months < 600)` is embedded
with `fuel = 600 - months`, so `fuel = 0` is exactly the `months < 600` exit
(at which point `months = 600`, matching the source's cap comment
"Cap at 50 years"). Each iteration charges `remaining * monthlyRate` interest,
pays `min (payment - interest) remaining` of principal, and returns the
`⟨600, none, none⟩` sentinel as soon as the principal payment is ≤ 0. -/
def payoffGo (monthlyRate monthlyPayment balance : ℚ) :
    ℕ → ℚ → ℚ → ℕ → PayoffResult
  | 0, _remaining, totalPaid, months => ⟨months, some totalPaid, some (totalPaid - balance)⟩
  | fuel + 1, remaining, totalPaid, months =>
    if remaining ≤ 0 then ⟨months, some totalPaid, some (totalPaid - balance)⟩
    else
      let interestCharge := remaining * monthlyRate
      let principalPayment := min (monthlyPayment - interestCharge) remaining
      if principalPayment ≤ 0 then ⟨600, none, none⟩
      else payoffGo monthlyRate monthlyPayment balance fuel
        (remaining - principalPayment) (totalPaid + monthlyPayment) (months + 1)

/-- `calculatePayoff` from the credit-card simulation: iterate the monthly
payoff from the full balance, capped at 600 months. -/
def calculatePayoff (balance monthlyRate monthlyPayment : ℚ) : PayoffResult :=
  payoffGo monthlyRate monthlyPayment balance 600 balance 0 0

/-- One unfolding of the loop, as a rewriting lemma. -/
theorem payoffGo_step (r p b rem tp : ℚ) (fuel months : ℕ) :
    payoffGo r p b (fuel + 1) rem tp months =
      if rem ≤ 0 then ⟨months, some tp, some (tp - b)⟩
      else if min (p - rem * r) rem ≤ 0 then ⟨600, none, none⟩
      else payoffGo r p b fuel (rem - min (p - rem * r) rem) (tp + p) (months + 1) := rfl

/-- C1 (amended): for every positive balance, with a monthly payment at or
below the interest-only threshold `balance * monthlyRate`, the debt-payoff
iteration terminates immediately with the distinguished non-convergent
sentinel `⟨600, ∞, ∞⟩` — it neither iterates unboundedly nor throws. (The
sentinel does not carry the minimum payment that would converge; see the
counterexample theorem.) -/
theorem calculatePayoff_nonConvergent (balance monthlyRate monthlyPayment : ℚ)
    (hbal : 0 < balance) (hpay : monthlyPayment ≤ balance * monthlyRate) :
    calculatePayoff balance monthlyRate monthlyPayment = ⟨600, none, none⟩ := by
  have hmin : min (monthlyPayment - balance * monthlyRate) balance ≤ 0 :=
    le_trans (min_le_left _ _) (by linarith)
  unfold calculatePayoff
  rw [show (600 : ℕ) = 599 + 1 from rfl, payoffGo_step,
    if_neg (not_le.mpr hbal), if_pos hmin]

/-- C1 witness: balance 5000 at 30% APR (monthly rate 1/40) with a $100
payment, which is below the $125 monthly interest, yields the sentinel. -/
theorem calculatePayoff_nonConvergent_witness :
    (0 : ℚ) < 5000 ∧ (100 : ℚ) ≤ 5000 * (1/40) ∧
      calculatePayoff 5000 (1/40) 100 = ⟨600, none, none⟩ :=
  ⟨by norm_num, by norm_num,
    calculatePayoff_nonConvergent 5000 (1/40) 100 (by norm_num) (by norm_num)⟩

/-- C1 counterexample to the claim as stated: the non-convergent result is the
same constant `⟨600, ∞, ∞⟩` for two debts whose interest-only thresholds (and
hence whose minimum converging payments, $125 versus $250 per month) differ,
so the result variant carries no minimum payment that would converge. -/
theorem calculatePayoff_sentinel_carries_no_payment :
    calculatePayoff 5000 (1/40) 100 = ⟨600, none, none⟩ ∧
    calculatePayoff 10000 (1/40) 100 = ⟨600, none, none⟩ ∧
    (5000 : ℚ) * (1/40) ≠ 10000 * (1/40) := by
  refine ⟨?_, ?_, by norm_num⟩ <;>
  · unfold calculatePayoff
    rw [show (600 : ℕ) = 599 + 1 from rfl, payoffGo_step,
      if_neg (by norm_num), if_pos (le_trans (min_le_left _ _) (by norm_num))]

/-- `minimumPayment` from `StepDebtSetup` (src/unnamed/part_015 line 18):
2% of the balance or $25, whichever is larger. -/
def minimumPayment (balance : ℚ) : ℚ := max 25 (balance * (2/100))

/-- Monthly rate from the APR percentage (src/unnamed/part_015 line 17). -/
def monthlyRateOfApr (apr : ℚ) : ℚ := apr / 100 / 12

/-- The argument handed to `Math.log` in the closed-form `monthsToPayoff`
(src/unnamed/part_015 line 19):
`minimumPayment / (minimumPayment - balance * monthlyRate)`. When this is
strictly negative, `Math.log` returns `NaN`, and `monthsToPayoff`,
`totalPaid = minimumPayment * monthsToPayoff`, and
`totalInterest = totalPaid - balance` are all `NaN` on the rendered page. -/
def monthsToPayoffLogArg (balance apr : ℚ) : ℚ :=
  minimumPayment balance / (minimumPayment balance - balance * monthlyRateOfApr apr)

/-- C10: inside the offered slider ranges (balance 1000–15000, APR 15–30),
at balance 5000 and APR 30 the minimum payment ($100) is at most the monthly
interest ($125), and the argument of `Math.log` in `monthsToPayoff` is
strictly negative (it equals -4), so the displayed months to pay off, total
paid, and total interest are `NaN` rather than a non-convergent result. -/
theorem stepDebtSetup_minimum_payment_NaN :
    ((1000 : ℚ) ≤ 5000 ∧ (5000 : ℚ) ≤ 15000 ∧ (15 : ℚ) ≤ 30 ∧ (30 : ℚ) ≤ 30) ∧
    minimumPayment 5000 ≤ 5000 * monthlyRateOfApr 30 ∧
    monthsToPayoffLogArg 5000 30 < 0 := by
  have hmp : minimumPayment 5000 = 100 := by
    unfold minimumPayment
    rw [show (5000 : ℚ) * (2/100) = 100 by norm_num,
      max_eq_right (by norm_num : (25 : ℚ) ≤ 100)]
  have hr : (5000 : ℚ) * monthlyRateOfApr 30 = 125 := by
    unfold monthlyRateOfApr; norm_num
  refine ⟨⟨by norm_num, by norm_num, by norm_num, by norm_num⟩, ?_, ?_⟩
  · rw [hmp, hr]; norm_num
  · unfold monthsToPayoffLogArg
    rw [hmp, hr]
    norm_num

/- ===================================================================
   Budget builder (src/frontend/src/app/(dashboard)/simulations/budget-builder/page.tsx)
   =================================================================== -/

/-- Needs bucket score from `StepVisualize` (line 394):
`Math.max(0, 100 - Math.abs(needsPercent - 50) * 2)`. -/
def needsScore (needsPercent : ℚ) : ℚ := max 0 (100 - |needsPercent - 50| * 2)

/-- Wants bucket score (line 395): `Math.max(0, 100 - Math.abs(wantsPercent - 30) * 3)`. -/
def wantsScore (wantsPercent : ℚ) : ℚ := max 0 (100 - |wantsPercent - 30| * 3)

/-- Savings bucket score (line 396): `Math.max(0, 100 - Math.abs(savingsPercent - 20) * 4)`. -/
def savingsScore (savingsPercent : ℚ) : ℚ := max 0 (100 - |savingsPercent - 20| * 4)

/-- Overall budget score from `StepVisualize` (line 397), applied to the three
bucket totals of the user's allocation; the percents are
`total / income * 100` (lines 389-391) and the overall score is
`Math.round((needsScore + wantsScore + savingsScore) / 3)`. -/
def overallScore (income totalNeeds totalWants totalSavings : ℚ) : ℤ :=
  jsRound ((needsScore (totalNeeds / income * 100) + wantsScore (totalWants / income * 100) +
    savingsScore (totalSavings / income * 100)) / 3)

/-- Stated per the spec's words, for comparison with the source scoring:
`bucket_score = max(0, 100 - deviation * penalty_factor)` with
`deviation = |actual_percent - target_percent|`. -/
def specBucketScore (target penaltyFactor actual : ℚ) : ℚ :=
  max 0 (100 - |actual - target| * penaltyFactor)

/-- Stated per the spec's words: the overall score is the rounded unweighted
average of the three bucket scores, with targets 50/30/20 and penalty factors
2/3/4. -/
def specOverallScore (income totalNeeds totalWants totalSavings : ℚ) : ℤ :=
  jsRound ((specBucketScore 50 2 (totalNeeds / income * 100) +
    specBucketScore 30 3 (totalWants / income * 100) +
    specBucketScore 20 4 (totalSavings / income * 100)) / 3)

/-- C2: for every income and allocation, the budget-builder overall score is
exactly the spec's rounded unweighted average of the three penalty-weighted
bucket scores; and an allocation of exactly 50% / 30% / 20% of a positive
income has deviation 0 in every bucket and overall score 100. -/
theorem overallScore_spec (income totalNeeds totalWants totalSavings : ℚ) :
    overallScore income totalNeeds totalWants totalSavings =
      specOverallScore income totalNeeds totalWants totalSavings ∧
    (0 < income →
      overallScore income (income * (50/100)) (income * (30/100)) (income * (20/100)) = 100) := by
  constructor
  · rfl
  · intro hpos
    have hne : income ≠ 0 := ne_of_gt hpos
    have h50 : income * (50/100) / income * 100 = (50 : ℚ) := by
      field_simp; ring
    have h30 : income * (30/100) / income * 100 = (30 : ℚ) := by
      field_simp; ring
    have h20 : income * (20/100) / income * 100 = (20 : ℚ) := by
      field_simp; ring
    unfold overallScore
    rw [h50, h30, h20]
    unfold needsScore wantsScore savingsScore jsRound
    norm_num [Int.floor_eq_iff]

/-- C2 witness: monthly income $1000 allocated as $500 needs, $300 wants,
$200 savings scores exactly 100. -/
theorem overallScore_spec_witness :
    (0 : ℚ) < 1000 ∧
      overallScore 1000 (1000 * (50/100)) (1000 * (30/100)) (1000 * (20/100)) = 100 :=
  ⟨by norm_num, (overallScore_spec 1000 0 0 0).2 (by norm_num)⟩

/- ===================================================================
   Coffee-shop habit-cost simulation (src/unnamed/part_012)
   =================================================================== -/

/-- The annual habit cost computed in `StepReality` and `handleComplete`
(src/unnamed/part_012 lines 66-69 and 425): `5.50 * 5 * 52`. -/
def coffeeActualCost : ℚ := (5.50 : ℚ) * 5 * 52

/-- The score derived in `handleComplete` (src/unnamed/part_012 lines 424-428):
`Math.round(Math.max(0, 100 - (|actual - guess| / actual * 100)))`. -/
def coffeeScore (guess : ℚ) : ℤ :=
  jsRound (max 0 (100 - (|coffeeActualCost - guess| / coffeeActualCost * 100)))

/-- C5: with daily cost 5.50 and 5 days per week over a 52-week year the
annual cost is 1430; for every guess the derived score is the rounded
percentage closeness `round(max(0, 100 - |1430 - g| / 1430 * 100))`, floored
at 0; and a guess of 500 scores 35 (the rounding of 34.965...). -/
theorem coffeeScore_spec :
    coffeeActualCost = 1430 ∧
    (∀ g : ℚ, coffeeScore g = jsRound (max 0 (100 - |1430 - g| / 1430 * 100))) ∧
    coffeeScore 500 = 35 := by
  have hc : coffeeActualCost = 1430 := by unfold coffeeActualCost; norm_num
  refine ⟨hc, fun g => by unfold coffeeScore; rw [hc], ?_⟩
  unfold coffeeScore
  rw [hc, show |(1430 : ℚ) - 500| = 930 by rw [show (1430 : ℚ) - 500 = 930 by norm_num]; norm_num [abs_of_pos],
    show (100 : ℚ) - 930 / 1430 * 100 = 5000/143 by norm_num,
    max_eq_right (by norm_num : (0 : ℚ) ≤ 5000/143)]
  unfold jsRound
  norm_num [Int.floor_eq_iff]

/-- `calculateFutureValue` from `StepCompound` (src/unnamed/part_012 lines
156-159): `if years === 0 return 0; return pmt * ((Math.pow(1+rate, years) - 1) / rate)`.
When `rate = 0` and `years > 0` the JavaScript division is `0 / 0`, which is
`NaN`; `none` encodes that `NaN`. The same unguarded annuity expression
appears inline in `StepCalculator` (src/unnamed/part_014 lines 540-550) with
the fixed rate 0.08. -/
def calculateFutureValue (pmt rate : ℚ) (years : ℕ) : Option ℚ :=
  if years = 0 then some 0
  else if rate = 0 then none
  else some (pmt * (((1 + rate) ^ years - 1) / rate))

/-- C4 (amended): the annuity future-value code has no zero-rate guard — for
every monthly amount, at annual rate 0 and any positive horizon the rate-term
division is `0 / 0` and the result is `NaN`, not `amount * periods`. (Both
call sites only ever pass the fixed nonzero rate 0.08, where the standard
annuity formula applies.) -/
theorem calculateFutureValue_zero_rate_NaN (pmt : ℚ) (years : ℕ) (h : 0 < years) :
    calculateFutureValue pmt 0 years = none := by
  unfold calculateFutureValue
  rw [if_neg (Nat.pos_iff_ne_zero.mp h), if_pos rfl]

/-- C4 witness: at amount 100 and 3 periods with rate 0 the result is `NaN`. -/
theorem calculateFutureValue_zero_rate_NaN_witness :
    0 < 3 ∧ calculateFutureValue 100 0 3 = none :=
  ⟨by norm_num, calculateFutureValue_zero_rate_NaN 100 3 (by norm_num)⟩

/-- C4 counterexample to the claim as stated: with rate 0, amount 100 and 3
periods the function yields `NaN` (`none`), not the exact product
`100 * 3 = 300` the claim requires of a guarded implementation. -/
theorem calculateFutureValue_zero_rate_counterexample :
    calculateFutureValue 100 0 3 = none ∧
      calculateFutureValue 100 0 3 ≠ some (100 * 3) := by
  have h : calculateFutureValue 100 0 3 = none := by
    unfold calculateFutureValue
    norm_num
  exact ⟨h, by rw [h]; exact fun hc => Option.noConfusion hc⟩

/- ===================================================================
   Progression engine (backend; multipliers declared in src/unnamed/part_016
   lines 148-151 and exercised by the API examples in src/unnamed/part_000)
   =================================================================== -/

/-- Modelled from the spec: the streak bonus of the ProgressionEngine XP
award. The Python backend implementing the award is not under src/; only the
roadmap document (src/unnamed/part_016, "XP Multipliers") declares the
thresholds: 3-day → +10%, 7-day → +25%, 30-day → +100%, evaluated on the
streak value before this event's streak update. -/
def streakBonus (streakDaysBefore : ℕ) : ℚ :=
  if 30 ≤ streakDaysBefore then 1
  else if 7 ≤ streakDaysBefore then 1/4
  else if 3 ≤ streakDaysBefore then 1/10
  else 0

/-- Modelled from the spec: the ProgressionEngine XP award. The backend code
is not under src/; the roadmap document (src/unnamed/part_016) declares the
bonuses (First Try +20%, Perfect Score +50%, streak bonus), and the spec fixes
`final XP = round(base * (1 + sum_of_applicable_bonus_fractions))` — the three
bonuses are added as fractions of the base, never compounded. -/
def awardXP (baseXP : ℚ) (rawScore : ℕ) (firstAttempt : Bool) (streakDaysBefore : ℕ) : ℤ :=
  jsRound (baseXP * (1 + ((if firstAttempt then 20/100 else 0) +
    (if 95 ≤ rawScore then 50/100 else 0) + streakBonus streakDaysBefore)))

/-- C3: a completion event with raw score 100, first attempt, and a pre-event
streak of 7 days on a simulation with base XP 100 awards
`round(100 * (1 + 0.20 + 0.50 + 0.25)) = 195` XP, the bonuses applied
additively. -/
theorem awardXP_perfect_first_streak7 : awardXP 100 100 true 7 = 195 := by
  unfold awardXP streakBonus jsRound
  norm_num [Int.floor_eq_iff]

/- ===================================================================
   Level table and stored level
   (src/frontend/src/app/(dashboard)/progress/page.tsx)
   =================================================================== -/

/-- One row of the level table on the progress page (lines 111-118). -/
structure LevelDef where
  level : ℕ
  name : String
  minXP : ℕ
  maxXP : ℕ
  color : String
deriving DecidableEq

/-- The level table from the progress page (lines 111-118). -/
def levels : List LevelDef :=
  [⟨1, "Financial Newbie", 0, 1000, "gray"⟩,
   ⟨2, "Money Learner", 1000, 2500, "blue"⟩,
   ⟨3, "Budget Pro", 2500, 5000, "green"⟩,
   ⟨4, "Debt Slayer", 5000, 10000, "purple"⟩,
   ⟨5, "Investment Guru", 10000, 20000, "yellow"⟩,
   ⟨6, "Financial Master", 20000, 999999, "orange"⟩]

/-- The user record of the progress page (lines 122-132): the current level is
a stored field alongside the XP, not derived from it. Fields in source order:
currentXP, currentLevel, simulationsCompleted, totalSimulations,
currentStreak, longestStreak, totalTimeSpent, badgesUnlocked, totalBadges. -/
structure UserStats where
  currentXP : ℕ
  currentLevel : ℕ
  simulationsCompleted : ℕ
  totalSimulations : ℕ
  currentStreak : ℕ
  longestStreak : ℕ
  totalTimeSpent : ℕ
  badgesUnlocked : ℕ
  totalBadges : ℕ
deriving DecidableEq

/-- The mock user data shipped on the progress page (lines 122-132). -/
def userData : UserStats := ⟨1250, 2, 2, 15, 7, 12, 180, 2, 10⟩

/-- The page's level lookup (line 134):
`levels.find(l => l.level === userData.currentLevel)` — it reads the stored
`currentLevel` field and never consults `currentXP`. -/
def pageCurrentLevel (u : UserStats) : Option LevelDef :=
  levels.find? (fun l => l.level == u.currentLevel)

/-- Stated per the spec's words, for comparison with the page's lookup: the
greatest `level` in the table whose `minXP ≤ totalXP`. -/
def derivedLevel (totalXP : ℕ) : ℕ :=
  ((levels.filter (fun l => l.minXP ≤ totalXP)).map (fun l => l.level)).foldr max 0

/-- C6 counterexample to the claim as stated: the progress page stores the
level separately from the XP and reads only the stored field, so a state with
1250 XP and stored level 5 renders level 5 while the greatest level with
`minXP ≤ 1250` is 2 — stored and derived level can disagree. -/
theorem pageCurrentLevel_stored_disagrees :
    (pageCurrentLevel ⟨1250, 5, 2, 15, 7, 12, 180, 2, 10⟩).map (fun l => l.level) = some 5 ∧
    derivedLevel 1250 = 2 := by
  constructor
  · rfl
  · rfl

/-- C6 (amended): the level table is ordered with strictly increasing minimum
XP and first entry 0, but the user's current level is a separately stored
field that the page reads directly (never recomputed from total XP), so it can
disagree with the XP; in the shipped mock data (1250 XP, stored level 2) the
stored level happens to coincide with the recomputed greatest level. -/
theorem levels_increasing_and_mock_level_consistent :
    List.Chain' (fun a b => a.minXP < b.minXP) levels ∧
    levels.head?.map (fun l => l.minXP) = some 0 ∧
    derivedLevel userData.currentXP = userData.currentLevel := by
  refine ⟨?_, rfl, rfl⟩
  norm_num [levels, List.chain'_cons]

/- ===================================================================
   Emergency-fund race (src/unnamed/part_013)
   =================================================================== -/

/-- Character state of the emergency-fund race (src/unnamed/part_013 lines
11-18). -/
structure RaceCharacter where
  name : String
  avatar : String
  hasEmergencyFund : Bool
  emergencyFund : ℚ
  debt : ℚ
  stress : ℚ
deriving DecidableEq

/-- An emergency event (src/unnamed/part_013 lines 20-25). Emoji prefixes of
the descriptions are kept as in the source. -/
structure Emergency where
  month : ℕ
  type : String
  cost : ℚ
  description : String
deriving DecidableEq

/-- The predetermined emergency schedule (src/unnamed/part_013 lines 137-142):
the same four events on every run. -/
def emergencyEvents : List Emergency :=
  [⟨2, "car", 800, "🚗 Car broke down - needs new battery and brakes"⟩,
   ⟨5, "medical", 1200, "🏥 Emergency dental work required"⟩,
   ⟨8, "home", 600, "🏠 Water heater failed and needs replacement"⟩,
   ⟨11, "appliance", 900, "❄️ Refrigerator died - need new one ASAP"⟩]

/-- Sarah's initial state (src/unnamed/part_013 lines 112-119). -/
def sarahInit : RaceCharacter := ⟨"Sarah", "👩‍💼", true, 5000, 0, 2⟩

/-- Mike's initial state (src/unnamed/part_013 lines 120-127). -/
def mikeInit : RaceCharacter := ⟨"Mike", "👨‍💼", false, 0, 0, 5⟩

/-- Sarah's emergency-month update (src/unnamed/part_013 lines 161-178): pay
from the fund if it covers the cost; otherwise zero the fund and add the
shortfall to debt. -/
def sarahEmergencyStep (c : RaceCharacter) (cost : ℚ) : RaceCharacter :=
  if cost ≤ c.emergencyFund then
    { c with emergencyFund := c.emergencyFund - cost, stress := min (c.stress + 1) 10 }
  else
    { c with emergencyFund := 0, debt := c.debt + (cost - c.emergencyFund),
             stress := min (c.stress + 3) 10 }

/-- Mike's emergency-month update (src/unnamed/part_013 lines 180-184): the
full cost goes onto the credit-card debt. -/
def mikeEmergencyStep (c : RaceCharacter) (cost : ℚ) : RaceCharacter :=
  { c with debt := c.debt + cost, stress := min (c.stress + 3) 10 }

/-- Sarah's normal-month update (src/unnamed/part_013 lines 191-196): save
$400, pay down 5% of any debt. -/
def sarahNormalStep (c : RaceCharacter) : RaceCharacter :=
  { c with emergencyFund := c.emergencyFund + 400,
           debt := max 0 (c.debt - c.debt * (5/100)),
           stress := max 1 (c.stress - 1/2) }

/-- Mike's normal-month update (src/unnamed/part_013 lines 198-202): debt
accrues 1.8% monthly interest (the source's "22% APR" comment). -/
def mikeNormalStep (c : RaceCharacter) : RaceCharacter :=
  { c with debt := c.debt + (if 0 < c.debt then c.debt * (18/1000) else 0),
           stress := if 0 < c.debt then min (c.stress + 1/2) 10 else c.stress }

/-- One month of the race (src/unnamed/part_013 lines 150-205): an emergency
month applies the emergency updates to both actors, any other month the
normal updates. -/
def raceMonthStep (m : ℕ) (s : RaceCharacter × RaceCharacter) :
    RaceCharacter × RaceCharacter :=
  match emergencyEvents.find? (fun e => e.month == m) with
  | some e => (sarahEmergencyStep s.1 e.cost, mikeEmergencyStep s.2 e.cost)
  | none => (sarahNormalStep s.1, mikeNormalStep s.2)

/-- The full 12-month race over months 0 through 11. -/
def runRace : RaceCharacter × RaceCharacter :=
  (List.range 12).foldl (fun s m => raceMonthStep m s) (sarahInit, mikeInit)

/-- C7: the emergency-fund simulation walks the same fixed event schedule on
every run — emergencies at months 2, 5, 8, 11 costing 800, 1200, 600, 900 —
and on an emergency month the with-fund actor pays the cost from the fund
when the fund covers it and otherwise zeroes the fund and adds the shortfall
to debt, while the without-fund actor adds the full cost to the
interest-bearing debt. -/
theorem emergencyFund_schedule_and_steps :
    emergencyEvents.map (fun e => (e.month, e.cost)) =
      [(2, 800), (5, 1200), (8, 600), (11, 900)] ∧
    (∀ (c : RaceCharacter) (cost : ℚ), cost ≤ c.emergencyFund →
      (sarahEmergencyStep c cost).emergencyFund = c.emergencyFund - cost ∧
      (sarahEmergencyStep c cost).debt = c.debt) ∧
    (∀ (c : RaceCharacter) (cost : ℚ), c.emergencyFund < cost →
      (sarahEmergencyStep c cost).emergencyFund = 0 ∧
      (sarahEmergencyStep c cost).debt = c.debt + (cost - c.emergencyFund)) ∧
    (∀ (c : RaceCharacter) (cost : ℚ),
      (mikeEmergencyStep c cost).debt = c.debt + cost) := by
  refine ⟨rfl, ?_, ?_, fun c cost => rfl⟩
  · intro c cost h
    unfold sarahEmergencyStep
    rw [if_pos h]
    exact ⟨rfl, rfl⟩
  · intro c cost h
    unfold sarahEmergencyStep
    rw [if_neg (not_le.mpr h)]
    exact ⟨rfl, rfl⟩

/-- C7 witness: Sarah's $5000 fund covers the month-2 $800 repair (fund drops
to $4200, no debt), a character with only $100 in the fund is zeroed out with
$700 of new debt, and Mike takes the full $800 as debt. -/
theorem emergencyFund_schedule_and_steps_witness :
    ((800 : ℚ) ≤ sarahInit.emergencyFund ∧
      (sarahEmergencyStep sarahInit 800).emergencyFund = sarahInit.emergencyFund - 800 ∧
      (sarahEmergencyStep sarahInit 800).debt = sarahInit.debt) ∧
    ((⟨"Sarah", "👩‍💼", true, 100, 0, 2⟩ : RaceCharacter).emergencyFund < 800 ∧
      (sarahEmergencyStep ⟨"Sarah", "👩‍💼", true, 100, 0, 2⟩ 800).emergencyFund = 0 ∧
      (sarahEmergencyStep ⟨"Sarah", "👩‍💼", true, 100, 0, 2⟩ 800).debt = 0 + (800 - 100)) ∧
    (mikeEmergencyStep mikeInit 800).debt = mikeInit.debt + 800 := by
  have h1 : (800 : ℚ) ≤ sarahInit.emergencyFund := by norm_num [sarahInit]
  have h2 : (⟨"Sarah", "👩‍💼", true, 100, 0, 2⟩ : RaceCharacter).emergencyFund < 800 := by
    norm_num
  exact ⟨⟨h1, (emergencyFund_schedule_and_steps.2.1 sarahInit 800 h1).1,
      (emergencyFund_schedule_and_steps.2.1 sarahInit 800 h1).2⟩,
    ⟨h2, (emergencyFund_schedule_and_steps.2.2.1 _ 800 h2).1,
      (emergencyFund_schedule_and_steps.2.2.1 _ 800 h2).2⟩,
    emergencyFund_schedule_and_steps.2.2.2 mikeInit 800⟩

/- ===================================================================
   Paycheck game (src/frontend/src/app/(dashboard)/simulations/paycheck-game/page.tsx)
   =================================================================== -/

/-- The three ordering policies of the paycheck game. -/
inductive Strategy where
  | spendFirst
  | billsFirst
  | saveFirst
deriving DecidableEq

/-- Result record of `simulateStrategy` (paycheck-game page lines 313-361).
The narrative `description` string of the source is omitted; all numeric and
boolean fields are kept. -/
structure StrategyResult where
  strategy : Strategy
  amountSaved : ℚ
  billsPaidOnTime : Bool
  discretionarySpent : ℚ
  lateFees : ℚ
  stressLevel : String
  finalBalance : ℚ
deriving DecidableEq

/-- `simulateStrategy` from `StepResults` (paycheck-game page lines 313-361):
spend-first overspends the remainder by the fixed factor 1.3, saves nothing
and incurs $70 of late fees ("2 bills late"); bills-first spends 95% of the
remainder and saves 5% of it; save-first saves the 10%-of-income target and
spends the rest of the remainder. -/
def simulateStrategy (income expenses : ℚ) (strat : Strategy) : StrategyResult :=
  let remaining := income - expenses
  let savingsTarget := income * (10/100)
  match strat with
  | .spendFirst =>
    let discretionary := remaining * (13/10)
    ⟨.spendFirst, 0, false, discretionary, 70, "high",
      income - expenses - discretionary - 70⟩
  | .billsFirst =>
    let discretionary := remaining * (95/100)
    ⟨.billsFirst, remaining * (5/100), true, discretionary, 0, "medium",
      income - expenses - discretionary⟩
  | .saveFirst =>
    let saved := savingsTarget
    let discretionary := remaining - saved
    ⟨.saveFirst, saved, true, discretionary, 0, "low",
      income - expenses - discretionary⟩

/-- C9: for every income and fixed-expense total with positive remainder, the
strategy allocator is a deterministic function of the chosen policy:
spend-first overspends the discretionary remainder by the fixed factor 1.3,
saves 0, incurs $70 of late fees and marks bills not paid on time, while
bills-first and save-first pay bills on time with zero late fees and save 5%
of the remainder and 10% of income respectively. -/
theorem simulateStrategy_policy (income expenses : ℚ)
    (_hrem : 0 < income - expenses) :
    ((simulateStrategy income expenses .spendFirst).discretionarySpent =
        (income - expenses) * (13/10) ∧
      (simulateStrategy income expenses .spendFirst).amountSaved = 0 ∧
      (simulateStrategy income expenses .spendFirst).lateFees = 70 ∧
      (simulateStrategy income expenses .spendFirst).billsPaidOnTime = false) ∧
    ((simulateStrategy income expenses .billsFirst).billsPaidOnTime = true ∧
      (simulateStrategy income expenses .billsFirst).lateFees = 0 ∧
      (simulateStrategy income expenses .billsFirst).amountSaved =
        (income - expenses) * (5/100)) ∧
    ((simulateStrategy income expenses .saveFirst).billsPaidOnTime = true ∧
      (simulateStrategy income expenses .saveFirst).lateFees = 0 ∧
      (simulateStrategy income expenses .saveFirst).amountSaved = income * (10/100)) :=
  ⟨⟨rfl, rfl, rfl, rfl⟩, ⟨rfl, rfl, rfl⟩, ⟨rfl, rfl, rfl⟩⟩

/-- C9 witness: income $5000 with $3000 of fixed expenses (remainder $2000):
spend-first spends $2600 and saves nothing with $70 of fees, bills-first
saves $100, save-first saves $500. -/
theorem simulateStrategy_policy_witness :
    (0 : ℚ) < 5000 - 3000 ∧
    (simulateStrategy 5000 3000 .spendFirst).discretionarySpent = (5000 - 3000) * (13/10) ∧
    (simulateStrategy 5000 3000 .spendFirst).lateFees = 70 ∧
    (simulateStrategy 5000 3000 .billsFirst).amountSaved = (5000 - 3000) * (5/100) ∧
    (simulateStrategy 5000 3000 .saveFirst).amountSaved = 5000 * (10/100) :=
  ⟨by norm_num,
    (simulateStrategy_policy 5000 3000 (by norm_num)).1.1,
    (simulateStrategy_policy 5000 3000 (by norm_num)).1.2.2.1,
    (simulateStrategy_policy 5000 3000 (by norm_num)).2.1.2.2,
    (simulateStrategy_policy 5000 3000 (by norm_num)).2.2.2.2⟩

/- ===================================================================
   Compound-interest race (src/unnamed/part_014)
   =================================================================== -/

/-- The fixed annual return of the compound-interest race
(src/unnamed/part_014 line 116). -/
def returnRate : ℚ := 8/100

/-- `calculateValue` from `StepRace` (src/unnamed/part_014 lines 119-153),
returning `(balance, invested)`. Outside the contribution window it grows the
future value of the contributed annuity for the years past `endAge`; inside
the window it is the future value of the annuity contributed so far. The
source's `yearsGrowing` local is computed but never used and is omitted. -/
def calculateValue (startAge endAge : ℕ) (monthlyAmount : ℚ) (currentAge : ℕ) : ℚ × ℚ :=
  if currentAge < startAge ∨ endAge < currentAge then
    let yearsInvesting : ℕ := min endAge currentAge - startAge
    if yearsInvesting = 0 then (0, 0)
    else
      let monthlyRate := returnRate / 12
      let months := yearsInvesting * 12
      let fv := monthlyAmount * (((1 + monthlyRate) ^ months - 1) / monthlyRate)
      let additionalYears : ℤ := (currentAge : ℤ) - (endAge : ℤ)
      let balance := if 0 < additionalYears then fv * (1 + returnRate) ^ additionalYears.toNat
        else fv
      (balance, monthlyAmount * months)
  else
    let monthlyRate := returnRate / 12
    let months := (currentAge - startAge) * 12
    (monthlyAmount * (((1 + monthlyRate) ^ months - 1) / monthlyRate),
      monthlyAmount * months)

/-- C8: at the common horizon of age 65 under the fixed 8% return, Early Bird
Emma ($300/month from 25 to 35) ends with a strictly larger balance than both
Steady Steven ($300/month from 35 to 65) and Late Larry ($500/month from
45 to 65). -/
theorem compound_race_early_contributor_wins :
    (calculateValue 35 65 300 65).1 < (calculateValue 25 35 300 65).1 ∧
    (calculateValue 45 65 500 65).1 < (calculateValue 25 35 300 65).1 := by
  have hEmma : (calculateValue 25 35 300 65).1 =
      300 * (((151/150 : ℚ)) ^ 120 - 1) * 150 * (27/25) ^ 30 := by
    have h30 : Int.toNat 30 = 30 := rfl
    unfold calculateValue returnRate
    norm_num [h30]
  have hSteven : (calculateValue 35 65 300 65).1 =
      300 * (((151/150 : ℚ)) ^ 360 - 1) * 150 := by
    unfold calculateValue returnRate
    norm_num
  have hLarry : (calculateValue 45 65 500 65).1 =
      500 * (((151/150 : ℚ)) ^ 240 - 1) * 150 := by
    unfold calculateValue returnRate
    norm_num
  rw [hEmma, hSteven, hLarry]
  constructor <;> norm_num

end MoneyMindset
